import Mathlib

/-!
Shallow embedding of the MCP server in `src/index.ts`.

Modelling conventions:
* JavaScript numbers are modelled as `ℚ`; `numToString` models the template
  interpolation of a number into a string (exact on integers, which is all the
  concrete claims use).
* A handler that can `throw` is modelled as returning `Except String _`,
  the `String` being the thrown `Error`'s message.
* Every interaction with the outside world (an HTTP fetch, the `Intl`
  formatter, the HuggingFace inference client, `Date` locale rendering) is an
  explicit parameter of the handler: the parameter's value is the outcome the
  environment would have produced.
-/

instance {ε α : Type} [DecidableEq ε] [DecidableEq α] : DecidableEq (Except ε α) :=
  fun a b =>
    match a, b with
    | Except.error e, Except.error f =>
        if h : e = f then isTrue (by rw [h]) else isFalse (by intro hh; cases hh; exact h rfl)
    | Except.ok x, Except.ok y =>
        if h : x = y then isTrue (by rw [h]) else isFalse (by intro hh; cases hh; exact h rfl)
    | Except.error _, Except.ok _ => isFalse (by intro hh; cases hh)
    | Except.ok _, Except.error _ => isFalse (by intro hh; cases hh)

/-- Tagged content block, as in the MCP response `content` array:
`{type:'text', text}` or `{type:'image', data, mimeType}`. -/
inductive ContentBlock where
  | text (text : String)
  | image (data : String) (mimeType : String)
  deriving DecidableEq, Repr

/-- The `structuredContent` object used throughout `index.ts`:
always of the form `{ content: [...] }`. -/
structure StructuredContent where
  content : List ContentBlock
  deriving DecidableEq, Repr

/-- A tool handler's success value: the `content` array plus the optional
`structuredContent` mirror. -/
structure ToolResponse where
  content : List ContentBlock
  structuredContent : Option StructuredContent
  deriving DecidableEq, Repr

/-- The repeated success pattern in `index.ts`: a single text block, mirrored
verbatim in `structuredContent.content`. -/
def mkTextResponse (t : String) : ToolResponse :=
  { content := [ContentBlock.text t]
    structuredContent := some { content := [ContentBlock.text t] } }

/-- Concatenation of the text of all text blocks of a `content` array (used to
state "the response text contains ..."). -/
def contentText (l : List ContentBlock) : String :=
  String.join (l.map fun b =>
    match b with
    | ContentBlock.text t => t
    | ContentBlock.image _ _ => "")

/-- `listPrefixB t s` decides whether `t` is an initial segment of `s`. -/
def listPrefixB : List Char → List Char → Bool
  | [], _ => true
  | _ :: _, [] => false
  | a :: as, b :: bs => a == b && listPrefixB as bs

/-- `listInfixB t s` decides whether `t` occurs contiguously inside `s`. -/
def listInfixB (t s : List Char) : Bool :=
  match s with
  | [] => listPrefixB t []
  | _ :: rest => listPrefixB t s || listInfixB t rest

/-- `strContainsSub s t` decides whether string `s` contains `t` as a
substring. -/
def strContainsSub (s t : String) : Bool :=
  listInfixB t.data s.data

/-- JavaScript template interpolation of a number, modelled on `ℚ`: integers
render with no fractional part (`${2}` is `"2"`), exactly as in JS; a
non-integral rational renders as `num/den` (the claims only evaluate number
rendering at integral values, where the model agrees with JS). -/
def numToString (q : ℚ) : String :=
  if q.den = 1 then toString q.num
  else toString q.num ++ "/" ++ toString q.den

/-- JavaScript `a || b` on an optional string field: `b` when the field is
absent or the empty string (both falsy), else the field's value. -/
def jsOr (o : Option String) (d : String) : String :=
  match o with
  | none => d
  | some s => if s = "" then d else s

/-- The `language` enum of the `greet` input schema: `z.enum(['ko','en'])`. -/
inductive Lang where
  | ko
  | en
  deriving DecidableEq, Repr

/-- The `greet` handler (src/index.ts lines 52-74): a Korean greeting for
`language === 'ko'`, the English greeting otherwise; the single text block is
mirrored in `structuredContent`. -/
def greet (name : String) (language : Lang) : ToolResponse :=
  let greeting :=
    if language = Lang.ko then "안녕하세요, " ++ name ++ "님!"
    else "Hey there, " ++ name ++ "! 👋 Nice to meet you!"
  mkTextResponse greeting

/-- Zod normalization of the optional `language` argument:
`.optional().default('en')` substitutes `'en'` when the caller omits it. -/
def normLang (o : Option Lang) : Lang :=
  o.getD Lang.en

/-- Invocation of `greet` through the input schema: the default is applied,
then the handler runs. -/
def greetInvoke (name : String) (language : Option Lang) : ToolResponse :=
  greet name (normLang language)

/-- The `operator` enum of the `calculator` input schema:
`z.enum(['+','-','*','/'])`. -/
inductive Op where
  | add
  | sub
  | mul
  | div
  deriving DecidableEq, Repr

/-- The `calculator` handler (src/index.ts lines 99-143): switches on the
operator; division by zero throws `'0으로 나눌 수 없습니다.'`; otherwise the
text `"<expression> = <result>"` is returned, mirrored in
`structuredContent`. -/
def calculator (number1 number2 : ℚ) (operator : Op) : Except String ToolResponse :=
  match operator with
  | Op.add =>
      Except.ok (mkTextResponse
        (numToString number1 ++ " + " ++ numToString number2 ++ " = "
          ++ numToString (number1 + number2)))
  | Op.sub =>
      Except.ok (mkTextResponse
        (numToString number1 ++ " - " ++ numToString number2 ++ " = "
          ++ numToString (number1 - number2)))
  | Op.mul =>
      Except.ok (mkTextResponse
        (numToString number1 ++ " * " ++ numToString number2 ++ " = "
          ++ numToString (number1 * number2)))
  | Op.div =>
      if number2 = 0 then Except.error "0으로 나눌 수 없습니다."
      else
        Except.ok (mkTextResponse
          (numToString number1 ++ " / " ++ numToString number2 ++ " = "
            ++ numToString (number1 / number2)))

/-- The outcome of a `fetch` call as the handler observes it: either the fetch
itself threw (network failure), or a response arrived with a status code, a
status text, the `ok` flag, and a parsed JSON body of type `α`. -/
inductive FetchOutcome (α : Type) where
  | fail (msg : String)
  | success (status : Nat) (statusText : String) (ok : Bool) (body : α)

/-- The `get_time` handler (src/index.ts lines 166-202). The `Intl`
formatter is the external collaborator: `fmt` is `Except.ok formattedTime`
when formatting succeeds and `Except.error cause` when the formatter throws
(invalid IANA timezone). The handler's catch block discards the cause and
throws a fixed invalid-timezone message naming the timezone. -/
def get_time (timezone : String) (fmt : Except String String) : Except String ToolResponse :=
  match fmt with
  | Except.error _ => Except.error ("유효하지 않은 시간대입니다: " ++ timezone)
  | Except.ok formattedTime =>
      Except.ok (mkTextResponse ("시간대: " ++ timezone ++ "\n현재 시간: " ++ formattedTime))

/-- One element of the Nominatim JSON array: `lat` and `lon` arrive as strings
that the handler passes through `parseFloat` (modelled as the numeric value
directly), and `display_name` may be absent or empty. -/
structure GeoResult where
  lat : ℚ
  lon : ℚ
  display_name : Option String
  deriving DecidableEq, Repr

/-- The success text of `geocode` for query `query` and first result `r`
(src/index.ts lines 251-256), including the `result.display_name || query`
fallback. -/
def geoText (query : String) (r : GeoResult) : String :=
  "주소: " ++ jsOr r.display_name query
    ++ "\n위도: " ++ numToString r.lat
    ++ "\n경도: " ++ numToString r.lon
    ++ "\n좌표: (" ++ numToString r.lat ++ ", " ++ numToString r.lon ++ ")"

/-- The `geocode` handler (src/index.ts lines 225-280). The catch block wraps
every failure as `지오코딩 오류: <cause>`: a failed fetch, a non-ok response
(`API 요청 실패: <status> <statusText>`), and an empty result array
(`주소를 찾을 수 없습니다: <query>`). -/
def geocode (query : String) (fetch : FetchOutcome (List GeoResult)) : Except String ToolResponse :=
  match fetch with
  | FetchOutcome.fail msg => Except.error ("지오코딩 오류: " ++ msg)
  | FetchOutcome.success status statusText ok body =>
      if !ok then
        Except.error ("지오코딩 오류: " ++ "API 요청 실패: " ++ toString status ++ " " ++ statusText)
      else
        match body with
        | [] => Except.error ("지오코딩 오류: " ++ "주소를 찾을 수 없습니다: " ++ query)
        | r :: _ => Except.ok (mkTextResponse (geoText query r))

/-- The fixed missing-credential message thrown by `generate_image` when
`HF_TOKEN` is empty (src/index.ts line 451). -/
def missingTokenMsg : String :=
  "HuggingFace 토큰이 설정되지 않았습니다. HF_TOKEN 환경변수를 설정하거나 huggingface_token 파일을 생성하세요."

/-- The `generate_image` handler (src/index.ts lines 448-485). `hfToken` is
the module-level `HF_TOKEN`; `inference` maps the prompt to the outcome the
HuggingFace inference client would produce for it (`Except.ok base64Data`
after the blob is base64-encoded, `Except.error cause` when the client
throws) — it is consulted only after the token check passes. The catch block
wraps every failure as `이미지 생성 오류: <cause>`. The success response
carries a single image block and no `structuredContent` (the descriptor
declares no outputSchema). -/
def generate_image (hfToken : String) (prompt : String)
    (inference : String → Except String String) : Except String ToolResponse :=
  if hfToken = "" then
    Except.error ("이미지 생성 오류: " ++ missingTokenMsg)
  else
    match inference prompt with
    | Except.error msg => Except.error ("이미지 생성 오류: " ++ msg)
    | Except.ok base64Data =>
        Except.ok { content := [ContentBlock.image base64Data "image/png"]
                    structuredContent := none }

/-- The `current_weather` object of the Open-Meteo response (the fields the
handler reads). -/
structure CurrentWeather where
  temperature : ℚ
  weathercode : Nat
  windspeed : ℚ
  deriving DecidableEq, Repr

/-- The `daily` object of the Open-Meteo response: parallel arrays indexed by
day. -/
structure DailyData where
  time : List String
  temperature_2m_max : List ℚ
  temperature_2m_min : List ℚ
  precipitation_sum : List ℚ
  weathercode : List Nat
  deriving DecidableEq, Repr

/-- The parsed Open-Meteo JSON body: `apiError` is `some reason` when the
body carries `{error: true, reason}`. -/
structure WeatherData where
  apiError : Option String
  current_weather : CurrentWeather
  daily : DailyData
  deriving DecidableEq, Repr

/-- One element the handler pushes onto `dailyForecast`
(src/index.ts lines 348-354). -/
structure ForecastEntry where
  date : String
  maxTemp : ℚ
  minTemp : ℚ
  precipitation : ℚ
  weathercode : Nat
  deriving DecidableEq, Repr

/-- Zod validation of `forecast_days`:
`z.number().int().min(1).max(16).optional().default(7)` — absent gives the
default 7; a non-integer is an integrality violation; an integer outside
`[1, 16]` is a range violation; otherwise the integer passes. -/
def validateForecastDays : Option ℚ → Except String Nat
  | none => Except.ok 7
  | some q =>
      if q.den ≠ 1 then Except.error "not_an_integer"
      else if 1 ≤ q.num ∧ q.num ≤ 16 then Except.ok q.num.toNat
      else Except.error "out_of_range"

/-- `daysToShow = Math.min(forecast_days, 3)` (src/index.ts line 345): the
display window is capped at the first 3 days. -/
def daysToShow (forecast_days : Nat) : Nat :=
  min forecast_days 3

/-- The `dailyForecast` array built by the loop at src/index.ts lines
347-355: one entry per `i < daysToShow`, reading the parallel `daily` arrays
at index `i` (an out-of-range JS read yields `undefined`; modelled with a
junk default, irrelevant when the arrays are long enough). -/
def mkDailyForecast (n : Nat) (daily : DailyData) : List ForecastEntry :=
  (List.range n).map fun i =>
    { date := daily.time.getD i ""
      maxTemp := daily.temperature_2m_max.getD i 0
      minTemp := daily.temperature_2m_min.getD i 0
      precipitation := daily.precipitation_sum.getD i 0
      weathercode := daily.weathercode.getD i 0 }

/-- The weather-code table of `getWeatherDescription`
(src/index.ts lines 358-390), with the fall-through
`날씨 코드: <code>`. -/
def getWeatherDescription (code : Nat) : String :=
  match code with
  | 0 => "맑음"
  | 1 => "대체로 맑음"
  | 2 => "부분적으로 흐림"
  | 3 => "흐림"
  | 45 => "안개"
  | 48 => "침적 안개"
  | 51 => "약한 이슬비"
  | 53 => "보통 이슬비"
  | 55 => "강한 이슬비"
  | 56 => "약한 동결 이슬비"
  | 57 => "강한 동결 이슬비"
  | 61 => "약한 비"
  | 63 => "보통 비"
  | 65 => "강한 비"
  | 66 => "약한 동결 비"
  | 67 => "강한 동결 비"
  | 71 => "약한 눈"
  | 73 => "보통 눈"
  | 75 => "강한 눈"
  | 77 => "눈알갱이"
  | 80 => "약한 소나기"
  | 81 => "보통 소나기"
  | 82 => "강한 소나기"
  | 85 => "약한 눈 소나기"
  | 86 => "강한 눈 소나기"
  | 95 => "뇌우"
  | 96 => "우박과 함께 뇌우"
  | 99 => "강한 우박과 함께 뇌우"
  | c => "날씨 코드: " ++ toString c

/-- The text appended for one forecast day by the `forEach` at src/index.ts
lines 400-413; `dateFmt` models `new Date(date).toLocaleDateString('ko-KR',
...)`. -/
def renderDay (dateFmt : String → String) (day : ForecastEntry) : String :=
  "\n" ++ dateFmt day.date ++ "\n"
    ++ "최고: " ++ numToString day.maxTemp ++ "°C / 최저: " ++ numToString day.minTemp ++ "°C\n"
    ++ "날씨: " ++ getWeatherDescription day.weathercode ++ "\n"
    ++ (if 0 < day.precipitation then "강수량: " ++ numToString day.precipitation ++ " mm\n"
        else "")

/-- The full `resultText` of a successful `get_weather` call
(src/index.ts lines 393-413). -/
def weatherResultText (latitude longitude : ℚ) (forecast_days : Nat)
    (dateFmt : String → String) (data : WeatherData) : String :=
  let current := data.current_weather
  let forecast := mkDailyForecast (daysToShow forecast_days) data.daily
  "📍 위치: 위도 " ++ numToString latitude ++ ", 경도 " ++ numToString longitude ++ "\n\n"
    ++ "🌡️ 현재 날씨\n"
    ++ "온도: " ++ numToString current.temperature ++ "°C\n"
    ++ "날씨: " ++ getWeatherDescription current.weathercode ++ "\n"
    ++ "풍속: " ++ numToString current.windspeed ++ " km/h\n\n"
    ++ "📅 " ++ toString forecast_days ++ "일 예보 (처음 "
    ++ toString (daysToShow forecast_days) ++ "일)\n"
    ++ String.join (forecast.map (renderDay dateFmt))

/-- The `get_weather` handler (src/index.ts lines 310-437), after validation
has produced `forecast_days`. The catch block wraps every failure as
`날씨 정보 조회 오류: <cause>`: a failed fetch, a non-ok response
(`API 요청 실패: <status> <statusText>`), and a body with `error` set
(`API 오류: <reason>`). -/
def get_weather (latitude longitude : ℚ) (forecast_days : Nat)
    (dateFmt : String → String) (fetch : FetchOutcome WeatherData) :
    Except String ToolResponse :=
  match fetch with
  | FetchOutcome.fail msg => Except.error ("날씨 정보 조회 오류: " ++ msg)
  | FetchOutcome.success status statusText ok body =>
      if !ok then
        Except.error ("날씨 정보 조회 오류: " ++ "API 요청 실패: "
          ++ toString status ++ " " ++ statusText)
      else
        match body.apiError with
        | some reason => Except.error ("날씨 정보 조회 오류: " ++ "API 오류: " ++ reason)
        | none =>
            Except.ok (mkTextResponse
              (weatherResultText latitude longitude forecast_days dateFmt body))

/-- Invocation of `get_weather` through the input schema: `forecast_days` is
validated (and defaulted) before the handler runs; a validation failure never
reaches the handler. -/
def get_weather_invoke (latitude longitude : ℚ) (forecast_days : Option ℚ)
    (dateFmt : String → String) (fetch : FetchOutcome WeatherData) :
    Except String ToolResponse :=
  match validateForecastDays forecast_days with
  | Except.error e => Except.error e
  | Except.ok fd => get_weather latitude longitude fd dateFmt fetch

/-- The `focus` enum of the `code-review` prompt:
`z.enum(['performance','security','best-practices','readability','all'])`. -/
inductive Focus where
  | performance
  | security
  | bestPractices
  | readability
  | all
  deriving DecidableEq, Repr

/-- One role-tagged message of a prompt response. -/
structure PromptMessage where
  role : String
  content : ContentBlock
  deriving DecidableEq, Repr

/-- A prompt handler's result: the `messages` array. -/
structure PromptResponse where
  messages : List PromptMessage
  deriving DecidableEq, Repr

/-- The `reviewTemplate` template literal of the `code-review` prompt
(src/index.ts lines 640-694), with the `${language || 'text'}` and `${code}`
interpolations. -/
def reviewTemplate (language : Option String) (code : String) : String :=
  "다음 코드를 리뷰해주세요. 다음 항목들을 중점적으로 검토해주세요:\n\n"
    ++ "## 리뷰 포인트\n\n"
    ++ "### 1. 코드 품질 및 가독성\n"
    ++ "- 코드의 가독성과 명확성\n"
    ++ "- 네이밍 컨벤션 준수 여부\n"
    ++ "- 주석 및 문서화\n"
    ++ "- 코드 구조 및 조직\n\n"
    ++ "### 2. 성능 및 최적화\n"
    ++ "- 알고리즘 효율성\n"
    ++ "- 불필요한 연산이나 중복 코드\n"
    ++ "- 메모리 사용 최적화\n"
    ++ "- 비동기 처리 적절성\n\n"
    ++ "### 3. 보안\n"
    ++ "- 입력값 검증 및 sanitization\n"
    ++ "- 보안 취약점 (SQL injection, XSS 등)\n"
    ++ "- 인증 및 권한 관리\n"
    ++ "- 민감 정보 처리\n\n"
    ++ "### 4. 모범 사례\n"
    ++ "- 언어별 모범 사례 준수\n"
    ++ "- 디자인 패턴 적용\n"
    ++ "- 에러 처리\n"
    ++ "- 테스트 가능성\n\n"
    ++ "### 5. 버그 및 잠재적 문제\n"
    ++ "- 논리적 오류\n"
    ++ "- 엣지 케이스 처리\n"
    ++ "- 타입 안정성\n"
    ++ "- 경쟁 조건 및 동시성 문제\n\n"
    ++ "## 리뷰할 코드\n\n"
    ++ "```" ++ jsOr language "text" ++ "\n"
    ++ code ++ "\n"
    ++ "```\n\n"
    ++ "## 리뷰 형식\n\n"
    ++ "다음 형식으로 리뷰를 제공해주세요:\n\n"
    ++ "### ✅ 잘된 점\n"
    ++ "- 구체적인 칭찬 포인트\n\n"
    ++ "### ⚠️ 개선이 필요한 점\n"
    ++ "- 구체적인 개선 사항과 이유\n\n"
    ++ "### 🔧 제안 사항\n"
    ++ "- 구체적인 개선 코드 예시 (가능한 경우)\n\n"
    ++ "### 📝 추가 고려사항\n"
    ++ "- 추가로 고려해야 할 사항들"

/-- The `focusInstructions` record of the `code-review` prompt
(src/index.ts lines 697-703). -/
def focusInstructions : Focus → String
  | Focus.performance => "\n\n**특별히 성능 최적화에 집중해서 리뷰해주세요.**"
  | Focus.security => "\n\n**특별히 보안 취약점과 보안 모범 사례에 집중해서 리뷰해주세요.**"
  | Focus.bestPractices => "\n\n**특별히 해당 언어의 모범 사례와 디자인 패턴 준수에 집중해서 리뷰해주세요.**"
  | Focus.readability => "\n\n**특별히 코드 가독성, 네이밍, 구조에 집중해서 리뷰해주세요.**"
  | Focus.all => ""

/-- The `code-review` prompt handler (src/index.ts lines 638-719): one
`user`-role text message carrying the template plus the focus-specific
instruction. -/
def codeReview (code : String) (language : Option String) (focus : Focus) : PromptResponse :=
  { messages := [ { role := "user"
                    content := ContentBlock.text
                      (reviewTemplate language code ++ focusInstructions focus) } ] }

/-- Invocation of `code-review` through the argument schema: the `focus`
default `'all'` is applied when the caller omits it, then the handler runs. -/
def codeReviewInvoke (code : String) (language : Option String)
    (focus : Option Focus) : PromptResponse :=
  codeReview code language (focus.getD Focus.all)

/-- One entry of the `tools` array in the server-info document
(src/index.ts lines 499-548): name, description, parameter summaries, and
(for `generate_image` only) an output note. -/
structure ToolInfo where
  name : String
  description : String
  parameters : List (String × String)
  output : Option String
  deriving DecidableEq, Repr

/-- One entry of the `prompts` array in the server-info document
(src/index.ts lines 551-562). -/
structure PromptInfo where
  name : String
  title : String
  description : String
  parameters : List (String × String)
  deriving DecidableEq, Repr

/-- One entry of the `resources` array in the server-info document
(src/index.ts lines 565-573). -/
structure ResourceInfo where
  name : String
  uri : String
  title : String
  description : String
  mimeType : String
  deriving DecidableEq, Repr

/-- The `tools` array of the server-info resource handler
(src/index.ts lines 499-548), transcribed in its source order. -/
def serverInfoTools : List ToolInfo :=
  [ { name := "greet"
      description := "이름과 언어를 입력하면 인사말을 반환합니다."
      parameters := [ ("name", "string")
                    , ("language", "enum[\"ko\", \"en\"] (optional, default: \"en\")") ]
      output := none }
  , { name := "calculator"
      description := "두 개의 숫자와 연산자를 입력받아 사칙연산 결과를 반환합니다."
      parameters := [ ("number1", "number")
                    , ("number2", "number")
                    , ("operator", "enum[\"+\", \"-\", \"*\", \"/\"]") ]
      output := none }
  , { name := "get_time"
      description := "시간대를 입력받아 해당 시간대의 현재 시간을 반환합니다."
      parameters := [ ("timezone", "string (IANA timezone 형식)") ]
      output := none }
  , { name := "geocode"
      description := "도시 이름이나 주소를 입력받아 위도와 경도 좌표를 반환합니다."
      parameters := [ ("query", "string (도시 이름이나 주소)") ]
      output := none }
  , { name := "get_weather"
      description := "위도와 경도 좌표, 예보 기간을 입력받아 해당 위치의 현재 날씨와 예보 정보를 제공합니다."
      parameters := [ ("latitude", "number (WGS84 좌표계)")
                    , ("longitude", "number (WGS84 좌표계)")
                    , ("forecast_days", "number (1-16, optional, default: 7)") ]
      output := none }
  , { name := "generate_image"
      description := "텍스트 프롬프트를 입력받아 AI 이미지를 생성합니다. (FLUX.1-schnell 모델 사용)"
      parameters := [ ("prompt", "string (생성할 이미지에 대한 설명)") ]
      output := some "base64 인코딩된 이미지 (image/png)" } ]

/-- The `prompts` array of the server-info resource handler
(src/index.ts lines 551-562). -/
def serverInfoPrompts : List PromptInfo :=
  [ { name := "code-review"
      title := "코드 리뷰"
      description := "코드를 입력받아 코드 리뷰를 위한 프롬프트를 생성합니다."
      parameters := [ ("code", "string (리뷰할 코드)")
                    , ("language", "string (optional, 프로그래밍 언어)")
                    , ("focus", "enum[\"performance\", \"security\", \"best-practices\", \"readability\", \"all\"] (optional, default: \"all\")") ] } ]

/-- The `resources` array of the server-info resource handler
(src/index.ts lines 565-573). -/
def serverInfoResources : List ResourceInfo :=
  [ { name := "server-info"
      uri := "mcp://server-info"
      title := "서버 정보"
      description := "현재 MCP 서버의 정보와 사용 가능한 도구, 리소스, 프롬프트 목록"
      mimeType := "application/json" } ]

/-- One `{count, list}` capability section of the server-info document. -/
structure CapabilitySection (α : Type) where
  count : Nat
  list : List α
  deriving DecidableEq, Repr

/-- The `capabilities` object of the server-info document
(src/index.ts lines 581-594): each section's `count` is the source
expression `<array>.length`. -/
structure Capabilities where
  tools : CapabilitySection ToolInfo
  prompts : CapabilitySection PromptInfo
  resources : CapabilitySection ResourceInfo
  deriving DecidableEq, Repr

/-- The capabilities block the server-info handler serializes. -/
def serverInfoCapabilities : Capabilities :=
  { tools := { count := serverInfoTools.length, list := serverInfoTools }
    prompts := { count := serverInfoPrompts.length, list := serverInfoPrompts }
    resources := { count := serverInfoResources.length, list := serverInfoResources } }

/-- The tool names in the order of the `server.registerTool` calls in
src/index.ts (lines 29, 77, 146, 205, 283, 440). -/
def registeredToolNames : List String :=
  ["greet", "calculator", "get_time", "geocode", "get_weather", "generate_image"]

/-- Which registered tools declare an `outputSchema` in their descriptor:
all but `generate_image` (src/index.ts lines 41, 88, 155, 214, 299; the
`generate_image` descriptor at lines 442-447 declares none). -/
def declaresOutputShape (tool : String) : Bool :=
  tool ≠ "generate_image" && registeredToolNames.contains tool

/-- The ambient environment a handler closure can observe: the `Intl`
formatter, the two fetch endpoints, `Date` locale rendering, the module-level
`HF_TOKEN`, and the HuggingFace inference client. -/
structure World where
  timeFmt : String → Except String String
  geoFetch : String → FetchOutcome (List GeoResult)
  weatherFetch : ℚ → ℚ → Nat → FetchOutcome WeatherData
  dateFmt : String → String
  hfToken : String
  inference : String → Except String String

/-- The `greet` handler run against an ambient environment: the source
closure reads no ambient state, so the world is ignored. -/
def runGreet (name : String) (language : Lang) (_w : World) : ToolResponse :=
  greet name language

/-- The `calculator` handler run against an ambient environment: the source
closure reads no ambient state, so the world is ignored. -/
def runCalculator (number1 number2 : ℚ) (operator : Op) (_w : World) :
    Except String ToolResponse :=
  calculator number1 number2 operator

/-- The `get_time` handler run against an ambient environment: it consults
the world's `Intl` formatter. -/
def runGetTime (timezone : String) (w : World) : Except String ToolResponse :=
  get_time timezone (w.timeFmt timezone)

/-- The `geocode` handler run against an ambient environment: it consults the
world's Nominatim endpoint. -/
def runGeocode (query : String) (w : World) : Except String ToolResponse :=
  geocode query (w.geoFetch query)

/-- The `get_weather` invocation run against an ambient environment: after
validation, the handler consults the world's Open-Meteo endpoint and date
renderer. -/
def runGetWeather (latitude longitude : ℚ) (forecast_days : Option ℚ)
    (w : World) : Except String ToolResponse :=
  match validateForecastDays forecast_days with
  | Except.error e => Except.error e
  | Except.ok fd =>
      get_weather latitude longitude fd w.dateFmt (w.weatherFetch latitude longitude fd)

/-- The `generate_image` handler run against an ambient environment: it reads
the world's `HF_TOKEN` and inference client. -/
def runGenerateImage (prompt : String) (w : World) : Except String ToolResponse :=
  generate_image w.hfToken prompt w.inference

/-- The `code-review` prompt handler run against an ambient environment: the
source closure reads no ambient state, so the world is ignored. -/
def runCodeReview (code : String) (language : Option String)
    (focus : Option Focus) (_w : World) : PromptResponse :=
  codeReviewInvoke code language focus

/-- C1: the calculator with `/` fails exactly on a zero second operand: for
`n2 ≠ 0` it succeeds with the single text block `"n1 / n2 = r"` where
`r = n1 / n2` (in particular `calculator(6,3,"/")` yields `"6 / 3 = 2"`), and
for a zero second operand it fails with the division-by-zero message instead
of a numeric result. -/
theorem calculator_div_spec :
    (∀ n1 n2 : ℚ, n2 ≠ 0 → calculator n1 n2 Op.div =
      Except.ok (mkTextResponse
        (numToString n1 ++ " / " ++ numToString n2 ++ " = " ++ numToString (n1 / n2))))
    ∧ calculator 6 3 Op.div = Except.ok (mkTextResponse "6 / 3 = 2")
    ∧ (∀ n1 : ℚ, calculator n1 0 Op.div = Except.error "0으로 나눌 수 없습니다.") := by
  refine ⟨?_, ?_, ?_⟩
  · intro n1 n2 h
    simp only [calculator]
    rw [if_neg h]
  · have h : (6:ℚ)/3 = 2 := by norm_num
    simp only [calculator, h]
    rw [if_neg (by norm_num : ¬ (3:ℚ) = 0)]
    decide
  · intro n1
    simp [calculator]

/-- Witness for C1 at the concrete input `(6, 3, "/")`. -/
theorem calculator_div_spec_witness :
    calculator 6 3 Op.div =
      Except.ok (mkTextResponse
        (numToString 6 ++ " / " ++ numToString 3 ++ " = " ++ numToString ((6:ℚ) / 3))) :=
  calculator_div_spec.1 6 3 (by norm_num)

/-- C3: `greet("Sam","ko")` yields text containing `안녕하세요, Sam님!`;
`greet("Sam")` with `language` omitted takes the declared default `en` and
yields text containing `Hey there, Sam!`; and for every name the Korean
greeting is produced exactly for `language = ko`, the English greeting for
the only other language value. -/
theorem greet_spec :
    strContainsSub (contentText (greetInvoke "Sam" (some Lang.ko)).content)
      "안녕하세요, Sam님!" = true
    ∧ strContainsSub (contentText (greetInvoke "Sam" none).content)
      "Hey there, Sam!" = true
    ∧ normLang none = Lang.en
    ∧ (∀ name : String,
        greet name Lang.ko = mkTextResponse ("안녕하세요, " ++ name ++ "님!"))
    ∧ (∀ name : String,
        greet name Lang.en = mkTextResponse ("Hey there, " ++ name ++ "! 👋 Nice to meet you!")) := by
  refine ⟨by decide, by decide, rfl, ?_, ?_⟩
  · intro name
    simp [greet]
  · intro name
    simp [greet]

/-- C6: with an empty `HF_TOKEN`, `generate_image` fails with the
missing-token message for every prompt, and its outcome is independent of the
inference client — no request outcome is ever consulted. -/
theorem generate_image_missing_token_spec :
    (∀ (prompt : String) (inference : String → Except String String),
      generate_image "" prompt inference =
        Except.error ("이미지 생성 오류: " ++ missingTokenMsg))
    ∧ (∀ (prompt : String) (inf1 inf2 : String → Except String String),
        generate_image "" prompt inf1 = generate_image "" prompt inf2)
    ∧ strContainsSub ("이미지 생성 오류: " ++ missingTokenMsg) "HuggingFace 토큰" = true := by
  refine ⟨?_, ?_, by decide⟩
  · intro prompt inference
    simp [generate_image]
  · intro prompt inf1 inf2
    simp [generate_image]

/-- C7: `geocode` fails with the message-carrying address-not-found error
whenever the upstream returns an empty result array, and with at least one
result succeeds with the text reporting the first result's display name,
latitude and longitude. -/
theorem geocode_spec :
    (∀ (query : String) (st : Nat) (sx : String),
      geocode query (FetchOutcome.success st sx true []) =
        Except.error ("지오코딩 오류: " ++ "주소를 찾을 수 없습니다: " ++ query))
    ∧ (∀ (query : String) (st : Nat) (sx : String) (r : GeoResult) (rest : List GeoResult),
        geocode query (FetchOutcome.success st sx true (r :: rest)) =
          Except.ok (mkTextResponse (geoText query r))) := by
  refine ⟨?_, ?_⟩
  · intro query st sx
    simp [geocode]
  · intro query st sx r rest
    simp [geocode]

/-- C8: the server-info document lists the six registered tools exactly once
each, in registration order, and in every capability section the `count`
field equals the length of the `list` field. -/
theorem server_info_spec :
    serverInfoTools.map ToolInfo.name = registeredToolNames
    ∧ (serverInfoTools.map ToolInfo.name).Nodup
    ∧ serverInfoCapabilities.tools.count = serverInfoCapabilities.tools.list.length
    ∧ serverInfoCapabilities.prompts.count = serverInfoCapabilities.prompts.list.length
    ∧ serverInfoCapabilities.resources.count = serverInfoCapabilities.resources.list.length := by
  refine ⟨rfl, by decide, rfl, rfl, rfl⟩

/-- C9: the `greet`, `calculator` and `code-review` handlers are
deterministic — their results do not depend on the ambient environment,
only on their arguments. -/
theorem handlers_deterministic_spec :
    (∀ (name : String) (language : Lang) (w w' : World),
      runGreet name language w = runGreet name language w')
    ∧ (∀ (number1 number2 : ℚ) (operator : Op) (w w' : World),
        runCalculator number1 number2 operator w = runCalculator number1 number2 operator w')
    ∧ (∀ (code : String) (language : Option String) (focus : Option Focus) (w w' : World),
        runCodeReview code language focus w = runCodeReview code language focus w') :=
  ⟨fun _ _ _ _ => rfl, fun _ _ _ _ _ => rfl, fun _ _ _ _ _ => rfl⟩

/-- The success pattern shared by the five text tools: `structuredContent`
mirrors `content`. -/
lemma mkTextResponse_mirror (t : String) :
    (mkTextResponse t).structuredContent = some ⟨(mkTextResponse t).content⟩ := rfl

/-- C2: every successful response of a tool that declares an outputSchema
(greet, calculator, get_time, geocode, get_weather) carries a
`structuredContent` whose `content` equals the response's `content`; the
`generate_image` success (the one tool without an outputSchema) carries no
`structuredContent`; and the declaration side matches tool by tool. -/
theorem structured_iff_outputShape_spec :
    (∀ (name : String) (language : Lang),
      (greet name language).structuredContent = some ⟨(greet name language).content⟩)
    ∧ (∀ (n1 n2 : ℚ) (op : Op) (r : ToolResponse),
        calculator n1 n2 op = Except.ok r → r.structuredContent = some ⟨r.content⟩)
    ∧ (∀ (tz : String) (fmt : Except String String) (r : ToolResponse),
        get_time tz fmt = Except.ok r → r.structuredContent = some ⟨r.content⟩)
    ∧ (∀ (q : String) (f : FetchOutcome (List GeoResult)) (r : ToolResponse),
        geocode q f = Except.ok r → r.structuredContent = some ⟨r.content⟩)
    ∧ (∀ (lat lon : ℚ) (fd : Nat) (df : String → String)
        (f : FetchOutcome WeatherData) (r : ToolResponse),
        get_weather lat lon fd df f = Except.ok r → r.structuredContent = some ⟨r.content⟩)
    ∧ (∀ (tok prompt : String) (inference : String → Except String String) (r : ToolResponse),
        generate_image tok prompt inference = Except.ok r → r.structuredContent = none)
    ∧ declaresOutputShape "greet" = true
    ∧ declaresOutputShape "calculator" = true
    ∧ declaresOutputShape "get_time" = true
    ∧ declaresOutputShape "geocode" = true
    ∧ declaresOutputShape "get_weather" = true
    ∧ declaresOutputShape "generate_image" = false := by
  refine ⟨?_, ?_, ?_, ?_, ?_, ?_, by decide, by decide, by decide, by decide, by decide, by decide⟩
  · intro name language
    exact mkTextResponse_mirror _
  · intro n1 n2 op r h
    cases op
    · simp only [calculator] at h
      injection h with h2
      subst h2
      exact mkTextResponse_mirror _
    · simp only [calculator] at h
      injection h with h2
      subst h2
      exact mkTextResponse_mirror _
    · simp only [calculator] at h
      injection h with h2
      subst h2
      exact mkTextResponse_mirror _
    · simp only [calculator] at h
      split at h
      · exact absurd h (by simp)
      · injection h with h2
        subst h2
        exact mkTextResponse_mirror _
  · intro tz fmt r h
    cases fmt
    · simp only [get_time] at h
      exact absurd h (by simp)
    · simp only [get_time] at h
      injection h with h2
      subst h2
      exact mkTextResponse_mirror _
  · intro q f r h
    cases f
    · simp only [geocode] at h
      exact absurd h (by simp)
    · simp only [geocode] at h
      split at h
      · exact absurd h (by simp)
      · split at h
        · exact absurd h (by simp)
        · injection h with h2
          subst h2
          exact mkTextResponse_mirror _
  · intro lat lon fd df f r h
    cases f
    · simp only [get_weather] at h
      exact absurd h (by simp)
    · simp only [get_weather] at h
      split at h
      · exact absurd h (by simp)
      · split at h
        · exact absurd h (by simp)
        · injection h with h2
          subst h2
          exact mkTextResponse_mirror _
  · intro tok prompt inference r h
    simp only [generate_image] at h
    split at h
    · exact absurd h (by simp)
    · split at h
      · exact absurd h (by simp)
      · injection h with h2
        subst h2
        rfl

/-- Witness for C2: a concrete successful `get_time` response mirrors its
content in `structuredContent`, and a concrete successful `generate_image`
response has none. -/
theorem structured_iff_outputShape_spec_witness :
    (mkTextResponse ("시간대: " ++ "UTC" ++ "\n현재 시간: " ++ "now")).structuredContent =
      some ⟨(mkTextResponse ("시간대: " ++ "UTC" ++ "\n현재 시간: " ++ "now")).content⟩
    ∧ (ToolResponse.mk [ContentBlock.image "img" "image/png"] none).structuredContent = none :=
  ⟨structured_iff_outputShape_spec.2.2.1 "UTC" (Except.ok "now") _ rfl,
   structured_iff_outputShape_spec.2.2.2.2.2.1 "tok" "p" (fun _ => Except.ok "img") _ rfl⟩

/-- C4: `forecast_days = 7` yields exactly 3 daily-forecast entries; every
integer in `[1, 16]` passes validation; 17 is rejected as a range violation;
and the rejected invocation never reaches the handler — its result is the
validation error whatever the fetch outcome would have been. -/
theorem forecast_days_validation_spec :
    (∀ daily : DailyData, (mkDailyForecast (daysToShow 7) daily).length = 3)
    ∧ (∀ n : ℤ, 1 ≤ n → n ≤ 16 →
        validateForecastDays (some (n : ℚ)) = Except.ok n.toNat)
    ∧ validateForecastDays (some 17) = Except.error "out_of_range"
    ∧ (∀ (lat lon : ℚ) (df : String → String) (f : FetchOutcome WeatherData),
        get_weather_invoke lat lon (some 17) df f = Except.error "out_of_range") := by
  have h17 : validateForecastDays (some 17) = Except.error "out_of_range" := by decide
  refine ⟨?_, ?_, h17, ?_⟩
  · intro daily
    simp [mkDailyForecast, daysToShow]
  · intro n h1 h16
    simp only [validateForecastDays, Rat.den_intCast, Rat.num_intCast]
    rw [if_neg (by simp), if_pos ⟨h1, h16⟩]
  · intro lat lon df f
    simp [get_weather_invoke, h17]

/-- Witness for C4 at the upper range bound 16. -/
theorem forecast_days_validation_spec_witness :
    validateForecastDays (some ((16:ℤ) : ℚ)) = Except.ok (16:ℤ).toNat :=
  forecast_days_validation_spec.2.1 16 (by norm_num) (by norm_num)

/-- `(List.range n).map (l.getD · d)` is `l.take n` when `n` is within
`l`. -/
lemma range_map_getD_eq_take {α : Type} (l : List α) (d : α) :
    ∀ n, n ≤ l.length → (List.range n).map (fun i => l.getD i d) = l.take n := by
  intro n
  induction n with
  | zero => intro _; simp
  | succ k ih =>
      intro h
      have hk : k < l.length := h
      rw [List.range_succ, List.map_append, ih (Nat.le_of_succ_le h), List.take_succ]
      simp [List.getD_eq_getElem l d hk, List.getElem?_eq_getElem hk]

/-- C10: with upstream daily data covering the requested days, the number of
rendered daily-forecast entries is `min forecast_days 3`, and the entries are
exactly the first `min forecast_days 3` upstream records; in particular
`forecast_days = 1` yields 1 entry and `forecast_days = 2` yields 2. -/
theorem forecast_cap_spec :
    (∀ (fd : Nat) (daily : DailyData), 1 ≤ fd → fd ≤ 16 → fd ≤ daily.time.length →
      (mkDailyForecast (daysToShow fd) daily).length = min fd 3
      ∧ (mkDailyForecast (daysToShow fd) daily).map ForecastEntry.date
          = daily.time.take (min fd 3))
    ∧ (∀ daily : DailyData, (mkDailyForecast (daysToShow 1) daily).length = 1)
    ∧ (∀ daily : DailyData, (mkDailyForecast (daysToShow 2) daily).length = 2) := by
  refine ⟨?_, ?_, ?_⟩
  · intro fd daily _h1 _h16 hlen
    constructor
    · simp [mkDailyForecast, daysToShow]
    · have hmin : min fd 3 ≤ daily.time.length :=
        Nat.le_trans (Nat.min_le_left fd 3) hlen
      simp only [mkDailyForecast, daysToShow, List.map_map]
      exact range_map_getD_eq_take daily.time "" (min fd 3) hmin
  · intro daily
    simp [mkDailyForecast, daysToShow]
  · intro daily
    simp [mkDailyForecast, daysToShow]

/-- Witness for C10 at `forecast_days = 2` with two upstream records. -/
theorem forecast_cap_spec_witness :
    (mkDailyForecast (daysToShow 2)
        (DailyData.mk ["d1", "d2"] [1, 2] [3, 4] [0, 5] [0, 61])).length = min 2 3
    ∧ (mkDailyForecast (daysToShow 2)
        (DailyData.mk ["d1", "d2"] [1, 2] [3, 4] [0, 5] [0, 61])).map ForecastEntry.date
        = (DailyData.mk ["d1", "d2"] [1, 2] [3, 4] [0, 5] [0, 61]).time.take (min 2 3) :=
  forecast_cap_spec.1 2 (DailyData.mk ["d1", "d2"] [1, 2] [3, 4] [0, 5] [0, 61])
    (by decide) (by decide) (by decide)

/-- Counterexample to C5: `get_time` does not wrap the underlying cause. When
the formatter throws with cause `boom`, the error reaching the caller is the
fixed invalid-timezone message; it does not contain the cause `boom` at all,
so the cause is swallowed rather than passed through in a
`"<tool> error: <cause>"` message. -/
theorem error_wrapping_cex :
    get_time "Bad/Zone" (Except.error "boom") =
      Except.error "유효하지 않은 시간대입니다: Bad/Zone"
    ∧ strContainsSub "유효하지 않은 시간대입니다: Bad/Zone" "boom" = false := by
  exact ⟨rfl, by decide⟩

/-- C5 as amended: `geocode`, `get_weather` and `generate_image` wrap every
handler failure as `"<tool-specific prefix> 오류: <cause>"` with the cause
included verbatim; `get_time` instead replaces the cause with a fixed
invalid-timezone message naming the timezone; and `calculator`'s zero-divisor
failure propagates its own division-by-zero message with no tool prefix. -/
theorem error_wrapping_amended_spec :
    (∀ (query msg : String),
      geocode query (FetchOutcome.fail msg) = Except.error ("지오코딩 오류: " ++ msg))
    ∧ (∀ (query : String) (st : Nat) (sx : String) (body : List GeoResult),
        geocode query (FetchOutcome.success st sx false body) =
          Except.error ("지오코딩 오류: " ++ "API 요청 실패: " ++ toString st ++ " " ++ sx))
    ∧ (∀ (lat lon : ℚ) (fd : Nat) (df : String → String) (msg : String),
        get_weather lat lon fd df (FetchOutcome.fail msg) =
          Except.error ("날씨 정보 조회 오류: " ++ msg))
    ∧ (∀ (tok prompt msg : String) (inference : String → Except String String),
        tok ≠ "" → inference prompt = Except.error msg →
          generate_image tok prompt inference = Except.error ("이미지 생성 오류: " ++ msg))
    ∧ (∀ (tz msg : String),
        get_time tz (Except.error msg) = Except.error ("유효하지 않은 시간대입니다: " ++ tz))
    ∧ (∀ n1 : ℚ, calculator n1 0 Op.div = Except.error "0으로 나눌 수 없습니다.") := by
  refine ⟨?_, ?_, ?_, ?_, ?_, ?_⟩
  · intro query msg
    simp [geocode]
  · intro query st sx body
    simp [geocode]
  · intro lat lon fd df msg
    simp [get_weather]
  · intro tok prompt msg inference htok hinf
    simp [generate_image, htok, hinf]
  · intro tz msg
    simp [get_time]
  · intro n1
    simp [calculator]

/-- Witness for the amended C5: a non-empty token and a failing inference
client yield the wrapped cause verbatim. -/
theorem error_wrapping_amended_spec_witness :
    generate_image "tok" "p" (fun _ => Except.error "boom") =
      Except.error ("이미지 생성 오류: " ++ "boom") :=
  error_wrapping_amended_spec.2.2.2.1 "tok" "p" "boom" (fun _ => Except.error "boom")
    (by decide) rfl
